import Mathlib

/-!
Verification of the RabbitMQ queue sensor (`sensors/queues_sensor.py`).

The development shallowly embeds the sensor's message-handling pipeline:
configuration extraction in `__init__`, connection setup in `setup`, the
per-message callback `_dispatch_trigger`, and the payload deserialization
helper `_deserialize_body`.  Python byte strings are modelled as `List Nat`
(one entry per byte), Python values reachable from `json.loads` /
`pickle.loads` as the inductive `PyObj`, and exceptions as values of `PyExc`
threaded through `Except`.  Observable effects of the callback and of setup
(log calls, broker operations, dispatch calls, acknowledgments, a propagated
exception) are recorded as event traces of type `List Ev`.
-/

set_option autoImplicit false

/-- Python exceptions distinguished by this embedding. -/
inductive PyExc where
  | jsonDecodeError
  | unicodeDecodeError
  | attributeError (attr : String)
  | keyError (key : String)
  | valueError (msg : String)
  | pickleError
  | connectionError
  | dispatchError
deriving DecidableEq

/-- Python values that can flow through the sensor's body-handling code:
raw byte strings plus everything `json.loads` (or `pickle.loads`) can
produce. -/
inductive PyObj where
  | pybytes (data : List Nat)
  | pystr (s : String)
  | pyint (n : Int)
  | pyfloat (lit : String)
  | pybool (b : Bool)
  | pynone
  | pylist (items : List PyObj)
  | pydict (entries : List (String × PyObj))

/-- Strict UTF-8 decoding of a byte list, fuel-indexed (the fuel is always
instantiated with the length of the list, which bounds the number of decoded
characters).  Mirrors CPython's strict `bytes.decode("utf-8")`: continuation
bytes, overlong encodings, surrogates and out-of-range lead bytes are all
rejected. -/
def utf8DecodeFuel : Nat → List Nat → Option (List Char)
  | _, [] => some []
  | 0, _ :: _ => none
  | fuel + 1, b0 :: t0 =>
    if b0 < 128 then
      (utf8DecodeFuel fuel t0).map fun cs => Char.ofNat b0 :: cs
    else if b0 < 194 then
      none
    else if b0 < 224 then
      match t0 with
      | b1 :: t1 =>
        if 128 ≤ b1 ∧ b1 < 192 then
          (utf8DecodeFuel fuel t1).map fun cs =>
            Char.ofNat ((b0 - 192) * 64 + (b1 - 128)) :: cs
        else none
      | [] => none
    else if b0 < 240 then
      match t0 with
      | b1 :: b2 :: t2 =>
        if (128 ≤ b1 ∧ b1 < 192) ∧ (128 ≤ b2 ∧ b2 < 192)
            ∧ (b0 = 224 → 160 ≤ b1) ∧ (b0 = 237 → b1 < 160) then
          (utf8DecodeFuel fuel t2).map fun cs =>
            Char.ofNat ((b0 - 224) * 4096 + (b1 - 128) * 64 + (b2 - 128)) :: cs
        else none
      | _ => none
    else if b0 < 245 then
      match t0 with
      | b1 :: b2 :: b3 :: t3 =>
        if (128 ≤ b1 ∧ b1 < 192) ∧ (128 ≤ b2 ∧ b2 < 192) ∧ (128 ≤ b3 ∧ b3 < 192)
            ∧ (b0 = 240 → 144 ≤ b1) ∧ (b0 = 244 → b1 < 144) then
          (utf8DecodeFuel fuel t3).map fun cs =>
            Char.ofNat ((b0 - 240) * 262144 + (b1 - 128) * 4096
              + (b2 - 128) * 64 + (b3 - 128)) :: cs
        else none
      | _ => none
    else none

/-- Strict UTF-8 decoding of a byte list to a `String`; `none` models a
`UnicodeDecodeError`. -/
def utf8Decode (b : List Nat) : Option String :=
  (utf8DecodeFuel b.length b).map String.mk

/-- The double-quote character, written by code point to keep string
literals simple. -/
def quoteChar : Char := Char.ofNat 34

/-- The backslash character. -/
def backslashCh : Char := Char.ofNat 92

/-- The opening curly-bracket character. -/
def lbraceCh : Char := Char.ofNat 123

/-- The closing curly-bracket character. -/
def rbraceCh : Char := Char.ofNat 125

/-- Skip JSON insignificant whitespace (space, tab, LF, CR). -/
def jsonWs : List Char → List Char
  | c :: rest =>
    if c = ' ' ∨ c = Char.ofNat 9 ∨ c = Char.ofNat 10 ∨ c = Char.ofNat 13 then jsonWs rest
    else c :: rest
  | [] => []

/-- Value of a hexadecimal digit character, if it is one. -/
def jsonHexDigit (c : Char) : Option Nat :=
  if '0' ≤ c ∧ c ≤ '9' then some (c.toNat - 48)
  else if 'a' ≤ c ∧ c ≤ 'f' then some (c.toNat - 87)
  else if 'A' ≤ c ∧ c ≤ 'F' then some (c.toNat - 55)
  else none

/-- Translation of a single-character JSON string escape. -/
def jsonEscapeChar (e : Char) : Option Char :=
  if e = quoteChar then some quoteChar
  else if e = backslashCh then some backslashCh
  else if e = Char.ofNat 47 then some (Char.ofNat 47)
  else if e = 'b' then some (Char.ofNat 8)
  else if e = 'f' then some (Char.ofNat 12)
  else if e = 'n' then some (Char.ofNat 10)
  else if e = 'r' then some (Char.ofNat 13)
  else if e = 't' then some (Char.ofNat 9)
  else none

/-- Parse the body of a JSON string (the opening quote already consumed),
returning the characters and the remaining input. -/
def jsonStringBody : Nat → List Char → Option (List Char × List Char)
  | 0, _ => none
  | _ + 1, [] => none
  | fuel + 1, c :: rest =>
    if c = quoteChar then some ([], rest)
    else if c = backslashCh then
      match rest with
      | [] => none
      | e :: rest2 =>
        if e = 'u' then
          match rest2 with
          | h1 :: h2 :: h3 :: h4 :: rest3 =>
            match jsonHexDigit h1, jsonHexDigit h2, jsonHexDigit h3, jsonHexDigit h4 with
            | some a, some b, some c2, some d2 =>
              (jsonStringBody fuel rest3).map fun pr =>
                (Char.ofNat (a * 4096 + b * 256 + c2 * 16 + d2) :: pr.1, pr.2)
            | _, _, _, _ => none
          | _ => none
        else
          match jsonEscapeChar e with
          | some ec => (jsonStringBody fuel rest2).map fun pr => (ec :: pr.1, pr.2)
          | none => none
    else if c.toNat < 32 then none
    else (jsonStringBody fuel rest).map fun pr => (c :: pr.1, pr.2)

/-- Take the longest run of decimal digits from the front of the input. -/
def jsonDigits : List Char → List Char × List Char
  | c :: rest =>
    if '0' ≤ c ∧ c ≤ '9' then
      let pr := jsonDigits rest
      (c :: pr.1, pr.2)
    else ([], c :: rest)
  | [] => ([], [])

/-- Numeric value of a list of decimal digit characters. -/
def digitsToNat (ds : List Char) : Nat :=
  ds.foldl (fun acc c => acc * 10 + (c.toNat - 48)) 0

/-- Parse an optional JSON fraction part, returning its literal characters
and the remaining input. -/
def jsonFrac : List Char → Option (List Char × List Char)
  | c :: rest =>
    if c = '.' then
      let pr := jsonDigits rest
      if pr.1 = [] then none else some (c :: pr.1, pr.2)
    else some ([], c :: rest)
  | [] => some ([], [])

/-- Parse an optional JSON exponent part, returning its literal characters
and the remaining input. -/
def jsonExp : List Char → Option (List Char × List Char)
  | c :: rest =>
    if c = 'e' ∨ c = 'E' then
      match rest with
      | s :: rest2 =>
        if s = '+' ∨ s = '-' then
          let pr := jsonDigits rest2
          if pr.1 = [] then none else some (c :: s :: pr.1, pr.2)
        else
          let pr := jsonDigits rest
          if pr.1 = [] then none else some (c :: pr.1, pr.2)
      | [] => none
    else some ([], c :: rest)
  | [] => some ([], [])

/-- Parse a JSON number.  Integers become `PyObj.pyint`; numbers with a
fraction or exponent become `PyObj.pyfloat`, carrying their literal text. -/
def jsonNumber (cs : List Char) : Option (PyObj × List Char) :=
  let negAndRest : Bool × List Char :=
    match cs with
    | c :: r => if c = '-' then (true, r) else (false, cs)
    | [] => (false, [])
  let intPart := jsonDigits negAndRest.2
  if intPart.1 = [] then none
  else if 2 ≤ intPart.1.length ∧ intPart.1.head? = some '0' then none
  else
    match jsonFrac intPart.2 with
    | none => none
    | some fr =>
      match jsonExp fr.2 with
      | none => none
      | some ex =>
        if fr.1 = [] ∧ ex.1 = [] then
          let n : Int := Int.ofNat (digitsToNat intPart.1)
          some (PyObj.pyint (if negAndRest.1 then -n else n), intPart.2)
        else
          let lit := String.mk ((if negAndRest.1 then ['-'] else [])
            ++ intPart.1 ++ fr.1 ++ ex.1)
          some (PyObj.pyfloat lit, ex.2)

mutual

/-- Parse a JSON value, returning it and the remaining input.  The fuel
bounds the recursion depth; `jsonParse` instantiates it generously enough
that it never runs out on inputs the grammar accepts. -/
def jsonValue : Nat → List Char → Option (PyObj × List Char)
  | 0, _ => none
  | fuel + 1, cs =>
    match jsonWs cs with
    | [] => none
    | c :: rest =>
      if c = lbraceCh then jsonObjFirst fuel rest
      else if c = '[' then jsonArrFirst fuel rest
      else if c = quoteChar then
        (jsonStringBody (fuel + 1) rest).map fun pr => (PyObj.pystr (String.mk pr.1), pr.2)
      else if c = 't' then
        match rest with
        | c1 :: c2 :: c3 :: r =>
          if c1 = 'r' ∧ c2 = 'u' ∧ c3 = 'e' then some (PyObj.pybool true, r) else none
        | _ => none
      else if c = 'f' then
        match rest with
        | c1 :: c2 :: c3 :: c4 :: r =>
          if c1 = 'a' ∧ c2 = 'l' ∧ c3 = 's' ∧ c4 = 'e' then
            some (PyObj.pybool false, r)
          else none
        | _ => none
      else if c = 'n' then
        match rest with
        | c1 :: c2 :: c3 :: r =>
          if c1 = 'u' ∧ c2 = 'l' ∧ c3 = 'l' then some (PyObj.pynone, r) else none
        | _ => none
      else jsonNumber (c :: rest)

/-- Parse the inside of a JSON object, the opening bracket already
consumed. -/
def jsonObjFirst : Nat → List Char → Option (PyObj × List Char)
  | 0, _ => none
  | fuel + 1, cs =>
    match jsonWs cs with
    | [] => none
    | c :: rest =>
      if c = rbraceCh then some (PyObj.pydict [], rest)
      else (jsonMembers fuel (c :: rest)).map fun pr => (PyObj.pydict pr.1, pr.2)

/-- Parse one or more `key : value` members followed by the closing
bracket. -/
def jsonMembers : Nat → List Char → Option (List (String × PyObj) × List Char)
  | 0, _ => none
  | fuel + 1, cs =>
    match jsonWs cs with
    | [] => none
    | c :: rest =>
      if c = quoteChar then
        match jsonStringBody (fuel + 1) rest with
        | none => none
        | some key =>
          match jsonWs key.2 with
          | [] => none
          | c2 :: r2 =>
            if c2 = ':' then
              match jsonValue fuel r2 with
              | none => none
              | some v =>
                match jsonWs v.2 with
                | [] => none
                | c3 :: r3 =>
                  if c3 = ',' then
                    (jsonMembers fuel r3).map fun pr =>
                      ((String.mk key.1, v.1) :: pr.1, pr.2)
                  else if c3 = rbraceCh then some ([(String.mk key.1, v.1)], r3)
                  else none
            else none
      else none

/-- Parse the inside of a JSON array, the opening bracket already
consumed. -/
def jsonArrFirst : Nat → List Char → Option (PyObj × List Char)
  | 0, _ => none
  | fuel + 1, cs =>
    match jsonWs cs with
    | [] => none
    | c :: rest =>
      if c = ']' then some (PyObj.pylist [], rest)
      else (jsonElements fuel (c :: rest)).map fun pr => (PyObj.pylist pr.1, pr.2)

/-- Parse one or more array elements followed by the closing bracket. -/
def jsonElements : Nat → List Char → Option (List PyObj × List Char)
  | 0, _ => none
  | fuel + 1, cs =>
    match jsonValue fuel cs with
    | none => none
    | some v =>
      match jsonWs v.2 with
      | [] => none
      | c :: rest =>
        if c = ',' then (jsonElements fuel rest).map fun pr => (v.1 :: pr.1, pr.2)
        else if c = ']' then some ([v.1], rest)
        else none

end

/-- Parse a complete JSON document: one value, with only whitespace allowed
after it. -/
def jsonParse (cs : List Char) : Option PyObj :=
  match jsonValue (4 * cs.length + 4) cs with
  | some pr => if jsonWs pr.2 = [] then some pr.1 else none
  | none => none

/-- Model of the Python stdlib boundary `json.loads` on byte input: the
bytes are first decoded as UTF-8 (a failure there is a
`UnicodeDecodeError`), then parsed as a JSON document (a failure there is a
`json.JSONDecodeError`).  Both are `Exception`s to the caller. -/
def jsonLoads (body : List Nat) : Except PyExc PyObj :=
  match utf8DecodeFuel body.length body with
  | none => Except.error PyExc.unicodeDecodeError
  | some cs =>
    match jsonParse cs with
    | some v => Except.ok v
    | none => Except.error PyExc.jsonDecodeError

example : utf8Decode [104, 101, 108, 108, 111] = some "hello" := by decide
example : utf8Decode [255] = none := by decide
example : jsonLoads [123, 34, 105, 100, 34, 58, 49, 125]
    = Except.ok (PyObj.pydict [("id", PyObj.pyint 1)]) := rfl
example : jsonLoads [104, 101, 108, 108, 111] = Except.error PyExc.jsonDecodeError := rfl
example : jsonLoads [255] = Except.error PyExc.unicodeDecodeError := rfl

/-- Python string truthiness for the optional string values the sensor
tests with bare `if`: `None` and the empty string are falsy. -/
def pyStrTruthy : Option String → Bool
  | none => false
  | some s => s != ""

/-- `DESERIALIZATION_FUNCTIONS` (lines 12-15): the module-level lookup table
mapping a mode name to its deserialization function.  `json.loads` is the
modelled parser above; `pickle.loads` is an arbitrary external function
`pickleLoads`, over which every theorem below is universally quantified,
since no claim evaluates a pickled payload. -/
def deserializationFunctions (pickleLoads : List Nat → Except PyExc PyObj)
    (m : String) : Option (List Nat → Except PyExc PyObj) :=
  if m = "json" then some jsonLoads
  else if m = "pickle" then some pickleLoads
  else none

/-- Membership of the configured method in
`DESERIALIZATION_FUNCTIONS.keys()` (line 47-48). -/
def isSupportedMethod : Option String → Bool
  | none => false
  | some m => m == "json" || m == "pickle"

/-- `_deserialize_body` (lines 128-139): return the body unchanged when no
method is configured; otherwise look the method up in the table (a miss
would be a `KeyError`) and apply it, swallowing any exception it raises and
falling back to the raw body. -/
def deserializeBody (pickleLoads : List Nat → Except PyExc PyObj)
    (method : Option String) (body : List Nat) : Except PyExc PyObj :=
  if pyStrTruthy method then
    match method with
    | some m =>
      match deserializationFunctions pickleLoads m with
      | some f =>
        match f body with
        | Except.ok v => Except.ok v
        | Except.error _ => Except.ok (PyObj.pybytes body)
      | none => Except.error (PyExc.keyError m)
    | none => Except.ok (PyObj.pybytes body)
  else
    Except.ok (PyObj.pybytes body)

/-- Python attribute call `body.decode("utf-8")` (line 112): only a bytes
object has a `decode` attribute; on bytes, strict UTF-8 decoding may raise
`UnicodeDecodeError`, and on any other value the attribute lookup itself
raises `AttributeError`. -/
def pyDecodeUtf8 : PyObj → Except PyExc String
  | PyObj.pybytes b =>
    match utf8Decode b with
    | some s => Except.ok s
    | none => Except.error PyExc.unicodeDecodeError
  | _ => Except.error (PyExc.attributeError "decode")

/-- The composite body transformation of `_dispatch_trigger` lines 110-112:
deserialize, then call `.decode("utf-8")` on the result. -/
def bodyText (pickleLoads : List Nat → Except PyExc PyObj)
    (method : Option String) (body : List Nat) : Except PyExc String :=
  match deserializeBody pickleLoads method body with
  | Except.ok v => pyDecodeUtf8 v
  | Except.error e => Except.error e

/-- The event payload handed to `dispatch` (line 113):
`{"queue": queue, "body": body}`. -/
structure Payload where
  queue : String
  body : String
deriving DecidableEq

/-- Observable events of the embedded sensor code, in program order: logger
calls (identified by level and format string), broker-channel operations,
the dispatch call into the host, message acknowledgment, and an exception
propagating out of the surrounding function. -/
inductive Ev where
  | log (level : String) (fmt : String)
  | connectAttempt
  | basicQos (prefetchCount : Nat)
  | queueDeclare (queue : String) (durable : Bool)
  | basicConsume (queue : String)
  | dispatchCall (trigger : String) (payload : Payload)
  | ack (deliveryTag : Nat)
  | raised (e : PyExc)
deriving DecidableEq

/-- The `try: dispatch ... finally: basic_ack` block of `_dispatch_trigger`
(lines 114-117): the dispatch call is made, the acknowledgment always
follows it, and a dispatch exception is re-raised after the
acknowledgment. -/
def dispatchAndAck (dispatch : String → Payload → Except PyExc Unit)
    (payload : Payload) (deliveryTag : Nat) : List Ev :=
  Ev.dispatchCall "rabbitmq.new_message" payload ::
    match dispatch "rabbitmq.new_message" payload with
    | Except.ok _ => [Ev.ack deliveryTag]
    | Except.error e => [Ev.ack deliveryTag, Ev.raised e]

/-- The format string of the debug log on line 111. -/
def recvMsgFmt : String := "Received message for queue %s with body %s"

/-- `_dispatch_trigger` (lines 109-117) as an event trace.  The
deserialization result is logged, then decoded; a decode failure occurs
before the `try`/`finally` block, so it propagates with neither a dispatch
nor an acknowledgment.  Otherwise the payload is dispatched and the message
acknowledged in the `finally` block. -/
def dispatchTrigger (pickleLoads : List Nat → Except PyExc PyObj)
    (dispatch : String → Payload → Except PyExc Unit)
    (method : Option String) (deliveryTag : Nat) (rawBody : List Nat)
    (queue : String) : List Ev :=
  match deserializeBody pickleLoads method rawBody with
  | Except.error e => [Ev.raised e]
  | Except.ok v =>
    Ev.log "debug" recvMsgFmt ::
      match pyDecodeUtf8 v with
      | Except.error e => [Ev.raised e]
      | Except.ok s => dispatchAndAck dispatch { queue := queue, body := s } deliveryTag

/-- The `queues` entry of the sensor configuration, which may hold a single
queue name or a list of names (line 42-44 normalizes). -/
inductive QueuesValue where
  | single (s : String)
  | list (qs : List String)
deriving DecidableEq

/-- The `rabbitmq_queue_sensor` sub-dictionary of the configuration.  An
`Option` field models presence of the key: both entries are read with
bracket access, so an absent key is a `KeyError`. -/
structure QueueSensorConfig where
  queues : Option QueuesValue
  deserialization_method : Option (Option String)
deriving DecidableEq

/-- The `sensor_config` dictionary (lines 31-41): `host` and
`rabbitmq_queue_sensor` are read with bracket access (required), the rest
with `.get` and a default. -/
structure SensorConfig where
  host : Option String
  port : Option Nat
  username : Option String
  password : Option String
  vhost : Option String
  socket_timeout : Option Nat
  blocked_connection_timeout : Option Nat
  heartbeat : Option Nat
  rabbitmq_queue_sensor : Option QueueSensorConfig
deriving DecidableEq

/-- The sensor's instance attributes after `__init__` (lines 27-53). -/
structure SensorState where
  host : String
  port : Nat
  username : Option String
  password : Option String
  vhost : Option String
  socket_timeout : Nat
  blocked_connection_timeout : Nat
  heartbeat : Nat
  queues : List String
  deserialization_method : Option String
  conn : Option Unit
  channel : Option Unit
deriving DecidableEq

/-- Lines 42-44: a non-list `queues` value is wrapped into a singleton
list. -/
def normalizeQueues : QueuesValue → List String
  | QueuesValue.single s => [s]
  | QueuesValue.list qs => qs

/-- `__init__` (lines 27-53): extract the configuration, normalize
`queues`, validate `deserialization_method` against the table keys (a
truthy unsupported value raises `ValueError`), and initialize `conn` and
`channel` to `None`. -/
def sensorInit (config : SensorConfig) : Except PyExc SensorState :=
  match config.host with
  | none => Except.error (PyExc.keyError "host")
  | some host =>
    match config.rabbitmq_queue_sensor with
    | none => Except.error (PyExc.keyError "rabbitmq_queue_sensor")
    | some qsc =>
      match qsc.queues with
      | none => Except.error (PyExc.keyError "queues")
      | some qv =>
        match qsc.deserialization_method with
        | none => Except.error (PyExc.keyError "deserialization_method")
        | some dm =>
          if pyStrTruthy dm && !isSupportedMethod dm then
            Except.error (PyExc.valueError "Invalid deserialization method specified")
          else
            Except.ok
              { host := host
                port := config.port.getD 5672
                username := config.username
                password := config.password
                vhost := config.vhost
                socket_timeout := config.socket_timeout.getD 60
                blocked_connection_timeout := config.blocked_connection_timeout.getD 60
                heartbeat := config.heartbeat.getD 600
                queues := normalizeQueues qv
                deserialization_method := dm
                conn := none
                channel := none }

/-- The debug log emitted once per connection parameter (line 82). -/
def connParamLog : Ev := Ev.log "debug" "Connecting to RabbitMQ with %s = %r"

/-- The per-parameter debug logs of lines 67-82: five base parameters, plus
`credentials` when both username and password are truthy, plus
`virtual_host` when vhost is truthy. -/
def paramLogs (st : SensorState) : List Ev :=
  connParamLog :: connParamLog :: connParamLog :: connParamLog :: connParamLog ::
    ((if pyStrTruthy st.username && pyStrTruthy st.password then [connParamLog] else [])
      ++ (if pyStrTruthy st.vhost then [connParamLog] else []))

/-- Result of running `setup` (lines 66-107): the event trace, the final
`conn` and `channel` attributes, the registered subscriptions (the queue
name passed to `basic_consume` together with the callback closure), and the
exception propagating out of `setup`, if any. -/
structure SetupResult where
  events : List Ev
  conn : Option Unit
  channel : Option Unit
  subs : List (String × (Nat → List Nat → List Ev))
  raised : Option PyExc

/-- The tail of `setup` from line 91 on: open the channel, set QoS
prefetch 1, and for each configured queue declare it durable and register a
callback.  Each callback closes over its own queue name through the
`queue_copy=queue` default argument (line 104), i.e. the name is captured
by value per iteration — modelled by the per-element binding of
`List.map`. -/
def setupTail (pickleLoads : List Nat → Except PyExc PyObj)
    (dispatch : String → Payload → Except PyExc Unit)
    (ev0 : List Ev) (conn : Option Unit) (st : SensorState) : SetupResult :=
  let ev1 := ev0 ++
    [Ev.log "debug" "Opening channel on RabbitMQ",
     Ev.log "debug" "Setting QOS on RabbitMQ Channel",
     Ev.basicQos 1,
     Ev.log "info" "Connected to RabbitMQ on %s:%r"]
  let ev2 := ev1 ++ (st.queues.map fun q =>
    [Ev.log "info" "Consuming queue %s", Ev.queueDeclare q true, Ev.basicConsume q]).flatten
  { events := ev2
    conn := conn
    channel := some ()
    subs := st.queues.map fun queue =>
      (queue, fun tag body =>
        dispatchTrigger pickleLoads dispatch st.deserialization_method tag body queue)
    raised := none }

/-- `setup` (lines 66-107).  The connect call is attempted exactly once;
on failure the bare `except` logs the error and execution continues, so the
very next statement `self.conn.channel()` runs against `conn = None` and
raises `AttributeError` (when no earlier connection exists).  On success
the connection is stored and setup proceeds to channel, QoS and
subscriptions. -/
def setup (pickleLoads : List Nat → Except PyExc PyObj)
    (dispatch : String → Payload → Except PyExc Unit)
    (connectOutcome : Except PyExc Unit) (st : SensorState) : SetupResult :=
  let ev0 := paramLogs st ++
    [Ev.log "info" "Connecting to RabbitMQ on %s:%r", Ev.connectAttempt]
  match connectOutcome with
  | Except.ok _ => setupTail pickleLoads dispatch ev0 (some ()) st
  | Except.error _ =>
    let ev1 := ev0 ++ [Ev.log "error" "Connecting to RabbitMQ failed: %r"]
    match st.conn with
    | none =>
      { events := ev1
        conn := none
        channel := st.channel
        subs := []
        raised := some (PyExc.attributeError "channel") }
    | some _ => setupTail pickleLoads dispatch ev1 st.conn st

/-- Recognizer for acknowledgment events. -/
def isAckEv : Ev → Bool
  | Ev.ack _ => true
  | _ => false

/-- Recognizer for dispatch-call events. -/
def isDispatchEv : Ev → Bool
  | Ev.dispatchCall _ _ => true
  | _ => false

/-- Whether an `Except` value is a success. -/
def exceptIsOk {ε α : Type} : Except ε α → Bool
  | Except.ok _ => true
  | Except.error _ => false

/-- A stand-in for the external `pickle.loads`, used only to instantiate
universally quantified statements at concrete inputs. -/
def pickleStub : List Nat → Except PyExc PyObj := fun _ => Except.error PyExc.pickleError

/-- A host dispatch boundary that always succeeds, for concrete
instantiations. -/
def dispatchOk : String → Payload → Except PyExc Unit := fun _ _ => Except.ok ()

/-- A host dispatch boundary that always raises, for concrete
instantiations. -/
def dispatchFail : String → Payload → Except PyExc Unit :=
  fun _ _ => Except.error PyExc.dispatchError

/-- The bytes of `b"hello"`. -/
def helloBytes : List Nat := [104, 101, 108, 108, 111]

/-- The bytes of the JSON document `b"\x7b\"id\":1\x7d"`. -/
def idJsonBytes : List Nat := [123, 34, 105, 100, 34, 58, 49, 125]

/-- A sensor configuration with `host` present and the given
`rabbitmq_queue_sensor` entries, every optional entry absent. -/
def cfgWith (qv : Option QueuesValue) (dm : Option (Option String)) : SensorConfig :=
  { host := some "localhost"
    port := none
    username := none
    password := none
    vhost := none
    socket_timeout := none
    blocked_connection_timeout := none
    heartbeat := none
    rabbitmq_queue_sensor := some { queues := qv, deserialization_method := dm } }

/-- A sensor state as produced by `sensorInit` on `cfgWith`, with the given
queue list and method. -/
def mkTestState (qs : List String) (dm : Option String) : SensorState :=
  { host := "localhost"
    port := 5672
    username := none
    password := none
    vhost := none
    socket_timeout := 60
    blocked_connection_timeout := 60
    heartbeat := 600
    queues := qs
    deserialization_method := dm
    conn := none
    channel := none }

example : dispatchTrigger pickleStub dispatchOk none 1 helloBytes "orders"
    = [Ev.log "debug" recvMsgFmt,
       Ev.dispatchCall "rabbitmq.new_message" { queue := "orders", body := "hello" },
       Ev.ack 1] := by decide
example : dispatchTrigger pickleStub dispatchOk (some "json") 1 idJsonBytes "jobs"
    = [Ev.log "debug" recvMsgFmt, Ev.raised (PyExc.attributeError "decode")] := by decide
example : dispatchTrigger pickleStub dispatchOk none 1 [255] "q"
    = [Ev.log "debug" recvMsgFmt, Ev.raised PyExc.unicodeDecodeError] := by decide
example : dispatchTrigger pickleStub dispatchOk (some "json") 1 [255] "q"
    = [Ev.log "debug" recvMsgFmt, Ev.raised PyExc.unicodeDecodeError] := by decide
example : dispatchTrigger pickleStub dispatchFail (some "json") 3 helloBytes "jobs"
    = [Ev.log "debug" recvMsgFmt,
       Ev.dispatchCall "rabbitmq.new_message" { queue := "jobs", body := "hello" },
       Ev.ack 3, Ev.raised PyExc.dispatchError] := by decide
example : sensorInit (cfgWith (some (QueuesValue.list ["q"])) (some (some "json")))
    = Except.ok (mkTestState ["q"] (some "json")) := rfl
example : sensorInit (cfgWith (some (QueuesValue.single "q")) (some none))
    = Except.ok (mkTestState ["q"] none) := rfl
example : sensorInit (cfgWith (some (QueuesValue.list ["q"])) none)
    = Except.error (PyExc.keyError "deserialization_method") := rfl
example : sensorInit (cfgWith (some (QueuesValue.list ["q"])) (some (some "msgpack")))
    = Except.error (PyExc.valueError "Invalid deserialization method specified") := rfl

/-! ## Helper lemmas about the callback trace -/

theorem dispatchAndAck_filter_ack (d : String → Payload → Except PyExc Unit)
    (payload : Payload) (tag : Nat) :
    (dispatchAndAck d payload tag).filter isAckEv = [Ev.ack tag] := by
  unfold dispatchAndAck
  cases hd : d "rabbitmq.new_message" payload <;> rfl

theorem dispatchAndAck_filter_dispatch (d : String → Payload → Except PyExc Unit)
    (payload : Payload) (tag : Nat) :
    (dispatchAndAck d payload tag).filter isDispatchEv
      = [Ev.dispatchCall "rabbitmq.new_message" payload] := by
  unfold dispatchAndAck
  cases hd : d "rabbitmq.new_message" payload <;> rfl

theorem dispatchTrigger_eq_ok (p : List Nat → Except PyExc PyObj)
    (d : String → Payload → Except PyExc Unit) (method : Option String)
    (tag : Nat) (rawBody : List Nat) (queue : String) (v : PyObj) (s : String)
    (h1 : deserializeBody p method rawBody = Except.ok v)
    (h2 : pyDecodeUtf8 v = Except.ok s) :
    dispatchTrigger p d method tag rawBody queue
      = Ev.log "debug" recvMsgFmt :: dispatchAndAck d { queue := queue, body := s } tag := by
  unfold dispatchTrigger
  rw [h1]
  show (Ev.log "debug" recvMsgFmt ::
    match pyDecodeUtf8 v with
    | Except.error e => [Ev.raised e]
    | Except.ok s2 => dispatchAndAck d { queue := queue, body := s2 } tag) = _
  rw [h2]

/-! ## Claims about the per-message callback -/

/-- Claim C1 (corrected).  The original claim — exactly one acknowledgment
for every message delivered to `_dispatch_trigger`, regardless of whether
deserialization, decoding, or dispatch succeeds — fails: `body.decode` runs
before the `try`/`finally` block, so a decoding failure aborts the callback
without any acknowledgment.  What holds is: the callback acknowledges the
message exactly once precisely when the deserialized (or fallen-back) body
reaches the dispatch step, i.e. when it decodes as UTF-8; dispatch failure
does not affect this.  Otherwise no acknowledgment is issued at all. -/
theorem ack_count_matches_decode_outcome (p : List Nat → Except PyExc PyObj)
    (d : String → Payload → Except PyExc Unit) (method : Option String)
    (tag : Nat) (rawBody : List Nat) (queue : String) :
    (dispatchTrigger p d method tag rawBody queue).filter isAckEv
      = match bodyText p method rawBody with
        | Except.ok _ => [Ev.ack tag]
        | Except.error _ => [] := by
  unfold bodyText
  cases h1 : deserializeBody p method rawBody with
  | error e =>
    unfold dispatchTrigger
    rw [h1]
    rfl
  | ok v =>
    unfold dispatchTrigger
    rw [h1]
    show List.filter isAckEv
        (Ev.log "debug" recvMsgFmt ::
          match pyDecodeUtf8 v with
          | Except.error e => [Ev.raised e]
          | Except.ok s => dispatchAndAck d { queue := queue, body := s } tag)
      = match pyDecodeUtf8 v with
        | Except.ok _ => [Ev.ack tag]
        | Except.error _ => []
    cases h2 : pyDecodeUtf8 v with
    | error e => rfl
    | ok s =>
      show (dispatchAndAck d { queue := queue, body := s } tag).filter isAckEv = [Ev.ack tag]
      exact dispatchAndAck_filter_ack d _ tag

/-- Claim C1, counterexample to the original statement: the body `b"\xff"`
under no deserialization mode is delivered to the callback, yet zero
acknowledgments are issued — the `UnicodeDecodeError` escapes before the
`try`/`finally` block is entered. -/
theorem undecodable_body_gets_no_ack :
    dispatchTrigger pickleStub dispatchOk none 1 [255] "q"
      = [Ev.log "debug" recvMsgFmt, Ev.raised PyExc.unicodeDecodeError]
    ∧ (dispatchTrigger pickleStub dispatchOk none 1 [255] "q").filter isAckEv = [] := by
  exact ⟨by decide, by decide⟩

/-- Claim C2 (code bug).  For queue "jobs" under mode "json" and the valid
JSON body `b"\x7b\"id\":1\x7d"`, `json.loads` succeeds and returns a dict,
and the following `body.decode("utf-8")` then raises `AttributeError` (a
dict has no `decode`), so the message is neither forwarded nor acknowledged
— contradicting both the spec scenario and the module's own docstring
("Each message is dispatched to stackstorm as a rabbitmq.new_message
TriggerInstance"). -/
theorem json_mode_valid_payload_crashes :
    jsonLoads idJsonBytes = Except.ok (PyObj.pydict [("id", PyObj.pyint 1)])
    ∧ dispatchTrigger pickleStub dispatchOk (some "json") 1 idJsonBytes "jobs"
      = [Ev.log "debug" recvMsgFmt, Ev.raised (PyExc.attributeError "decode")] := by
  exact ⟨rfl, by decide⟩

/-- Claim C3, counterexample to the original statement: under mode "json"
the body `b"\xff"` fails deserialization (fallback applies) but then also
fails UTF-8 decoding, and that failure is NOT swallowed: the exception
propagates and nothing is forwarded, contradicting "if deserialization or
UTF-8 decoding raises, the original raw bytes are used as the fallback and
the failure is not propagated". -/
theorem decode_failure_propagates_unforwarded :
    dispatchTrigger pickleStub dispatchOk (some "json") 1 [255] "q"
      = [Ev.log "debug" recvMsgFmt, Ev.raised PyExc.unicodeDecodeError]
    ∧ (dispatchTrigger pickleStub dispatchOk (some "json") 1 [255] "q").filter isDispatchEv
      = [] := by
  exact ⟨by decide, by decide⟩

/-- Claim C3 (corrected).  If deserialization raises under mode "json", the
raw bytes are used as the fallback and the deserialization failure is not
propagated; whenever those raw bytes are valid UTF-8, the message is
forwarded with the raw body unchanged and acknowledged once.  (A UTF-8
decoding failure, by contrast, propagates — see the counterexample.) -/
theorem json_failure_falls_back_to_raw (p : List Nat → Except PyExc PyObj)
    (d : String → Payload → Except PyExc Unit) (tag : Nat) (body : List Nat)
    (queue : String) (e : PyExc) (s : String)
    (hjson : jsonLoads body = Except.error e)
    (hdec : utf8Decode body = some s) :
    deserializeBody p (some "json") body = Except.ok (PyObj.pybytes body)
    ∧ (dispatchTrigger p d (some "json") tag body queue).filter isDispatchEv
        = [Ev.dispatchCall "rabbitmq.new_message" { queue := queue, body := s }]
    ∧ (dispatchTrigger p d (some "json") tag body queue).filter isAckEv = [Ev.ack tag] := by
  have hds : deserializeBody p (some "json") body = Except.ok (PyObj.pybytes body) := by
    show (match jsonLoads body with
          | Except.ok v => Except.ok v
          | Except.error _ => Except.ok (PyObj.pybytes body))
        = Except.ok (PyObj.pybytes body)
    rw [hjson]
  have hpd : pyDecodeUtf8 (PyObj.pybytes body) = Except.ok s := by
    show (match utf8Decode body with
          | some s2 => Except.ok s2
          | none => Except.error PyExc.unicodeDecodeError) = Except.ok s
    rw [hdec]
  refine ⟨hds, ?_, ?_⟩
  · rw [dispatchTrigger_eq_ok p d (some "json") tag body queue (PyObj.pybytes body) s hds hpd]
    show (dispatchAndAck d { queue := queue, body := s } tag).filter isDispatchEv = _
    exact dispatchAndAck_filter_dispatch d _ tag
  · rw [dispatchTrigger_eq_ok p d (some "json") tag body queue (PyObj.pybytes body) s hds hpd]
    show (dispatchAndAck d { queue := queue, body := s } tag).filter isAckEv = _
    exact dispatchAndAck_filter_ack d _ tag

/-- Witness for `json_failure_falls_back_to_raw`: `b"hello"` is invalid
JSON but valid UTF-8, so under mode "json" it is forwarded raw and
acknowledged. -/
theorem json_failure_falls_back_to_raw_witness :
    jsonLoads helloBytes = Except.error PyExc.jsonDecodeError
    ∧ utf8Decode helloBytes = some "hello"
    ∧ (deserializeBody pickleStub (some "json") helloBytes
        = Except.ok (PyObj.pybytes helloBytes)
      ∧ (dispatchTrigger pickleStub dispatchOk (some "json") 2 helloBytes "jobs").filter
          isDispatchEv
        = [Ev.dispatchCall "rabbitmq.new_message" { queue := "jobs", body := "hello" }]
      ∧ (dispatchTrigger pickleStub dispatchOk (some "json") 2 helloBytes "jobs").filter
          isAckEv
        = [Ev.ack 2]) :=
  ⟨rfl, by decide,
    json_failure_falls_back_to_raw pickleStub dispatchOk 2 helloBytes "jobs"
      PyExc.jsonDecodeError "hello" rfl (by decide)⟩

/-- Claim C4 (confirmed).  Whenever the body reaches the dispatch step and
the dispatch call raises, the acknowledgment is still issued — the trace is
exactly: debug log, dispatch call, acknowledgment, and only then the
propagating dispatch exception. -/
theorem ack_issued_before_dispatch_error_propagates
    (p : List Nat → Except PyExc PyObj) (method : Option String) (tag : Nat)
    (rawBody : List Nat) (queue : String) (v : PyObj) (s : String) (e : PyExc)
    (d : String → Payload → Except PyExc Unit)
    (h1 : deserializeBody p method rawBody = Except.ok v)
    (h2 : pyDecodeUtf8 v = Except.ok s)
    (hd : d "rabbitmq.new_message" { queue := queue, body := s } = Except.error e) :
    dispatchTrigger p d method tag rawBody queue
      = [Ev.log "debug" recvMsgFmt,
         Ev.dispatchCall "rabbitmq.new_message" { queue := queue, body := s },
         Ev.ack tag, Ev.raised e] := by
  rw [dispatchTrigger_eq_ok p d method tag rawBody queue v s h1 h2]
  unfold dispatchAndAck
  rw [hd]

/-- Witness for `ack_issued_before_dispatch_error_propagates`: a failing
dispatch boundary on a concrete message still yields the ack before the
re-raised error. -/
theorem ack_issued_before_dispatch_error_propagates_witness :
    deserializeBody pickleStub none helloBytes = Except.ok (PyObj.pybytes helloBytes)
    ∧ pyDecodeUtf8 (PyObj.pybytes helloBytes) = Except.ok "hello"
    ∧ dispatchFail "rabbitmq.new_message" { queue := "orders", body := "hello" }
        = Except.error PyExc.dispatchError
    ∧ dispatchTrigger pickleStub dispatchFail none 3 helloBytes "orders"
      = [Ev.log "debug" recvMsgFmt,
         Ev.dispatchCall "rabbitmq.new_message" { queue := "orders", body := "hello" },
         Ev.ack 3, Ev.raised PyExc.dispatchError] :=
  ⟨rfl, rfl, rfl,
    ack_issued_before_dispatch_error_propagates pickleStub none 3 helloBytes "orders"
      (PyObj.pybytes helloBytes) "hello" PyExc.dispatchError dispatchFail rfl rfl rfl⟩

/-- Claim C9 (confirmed).  For queue "orders" with no deserialization mode
configured and delivered body `b"hello"`, the callback forwards exactly one
event: trigger kind "rabbitmq.new_message" with payload queue = "orders",
body = "hello" — whatever the dispatch boundary does. -/
theorem orders_hello_event_forwarded (p : List Nat → Except PyExc PyObj)
    (d : String → Payload → Except PyExc Unit) (tag : Nat) :
    (dispatchTrigger p d none tag helloBytes "orders").filter isDispatchEv
      = [Ev.dispatchCall "rabbitmq.new_message" { queue := "orders", body := "hello" }]
    ∧ (dispatchTrigger p d none tag helloBytes "orders").filter isAckEv = [Ev.ack tag] := by
  have h : dispatchTrigger p d none tag helloBytes "orders"
      = Ev.log "debug" recvMsgFmt
        :: dispatchAndAck d { queue := "orders", body := "hello" } tag :=
    dispatchTrigger_eq_ok p d none tag helloBytes "orders"
      (PyObj.pybytes helloBytes) "hello" rfl rfl
  refine ⟨?_, ?_⟩
  · rw [h]
    show (dispatchAndAck d { queue := "orders", body := "hello" } tag).filter isDispatchEv = _
    exact dispatchAndAck_filter_dispatch d _ tag
  · rw [h]
    show (dispatchAndAck d { queue := "orders", body := "hello" } tag).filter isAckEv = _
    exact dispatchAndAck_filter_ack d _ tag

/-! ## Helper lemmas about construction and setup -/

theorem deserializeBody_total (p : List Nat → Except PyExc PyObj) (dm : Option String)
    (body : List Nat)
    (hsup : pyStrTruthy dm = false ∨ isSupportedMethod dm = true) :
    exceptIsOk (deserializeBody p dm body) = true := by
  cases dm with
  | none => rfl
  | some m =>
    rcases hsup with h | h
    · simp only [deserializeBody, h]
      rfl
    · have hm : m = "json" ∨ m = "pickle" := by
        unfold isSupportedMethod at h
        rcases Bool.or_eq_true_iff.mp h with h2 | h2
        · exact Or.inl (eq_of_beq h2)
        · exact Or.inr (eq_of_beq h2)
      rcases hm with rfl | rfl
      · show exceptIsOk
            (match jsonLoads body with
            | Except.ok v => Except.ok v
            | Except.error _ => Except.ok (PyObj.pybytes body)) = true
        cases hj : jsonLoads body <;> rfl
      · show exceptIsOk
            (match p body with
            | Except.ok v => Except.ok v
            | Except.error _ => Except.ok (PyObj.pybytes body)) = true
        cases hp : p body <;> rfl

theorem sensorInit_ok_method (c : SensorConfig) (st : SensorState)
    (hok : sensorInit c = Except.ok st) :
    pyStrTruthy st.deserialization_method = false
    ∨ isSupportedMethod st.deserialization_method = true := by
  obtain ⟨host, port, username, password, vhost, sto, bto, hb, rqs⟩ := c
  cases host with
  | none => exact absurd hok (by simp [sensorInit])
  | some h =>
    cases rqs with
    | none => exact absurd hok (by simp [sensorInit])
    | some qsc =>
      obtain ⟨qs, dm⟩ := qsc
      cases qs with
      | none => exact absurd hok (by simp [sensorInit])
      | some qv =>
        cases dm with
        | none => exact absurd hok (by simp [sensorInit])
        | some dm2 =>
          have hok2 : (if pyStrTruthy dm2 && !isSupportedMethod dm2 then
                Except.error (PyExc.valueError "Invalid deserialization method specified")
              else Except.ok
                { host := h, port := port.getD 5672, username := username,
                  password := password, vhost := vhost,
                  socket_timeout := sto.getD 60,
                  blocked_connection_timeout := bto.getD 60,
                  heartbeat := hb.getD 600, queues := normalizeQueues qv,
                  deserialization_method := dm2, conn := none,
                  channel := none }) = Except.ok st := hok
          cases hg : (pyStrTruthy dm2 && !isSupportedMethod dm2) with
          | true => rw [hg] at hok2; simp at hok2
          | false =>
            rw [hg] at hok2
            simp only [Bool.false_eq_true, if_false, Except.ok.injEq] at hok2
            subst hok2
            show pyStrTruthy dm2 = false ∨ isSupportedMethod dm2 = true
            cases h1 : pyStrTruthy dm2 with
            | false => exact Or.inl rfl
            | true =>
              cases h2 : isSupportedMethod dm2 with
              | true => exact Or.inr rfl
              | false => rw [h1, h2] at hg; exact absurd hg (by decide)

theorem paramLogs_count (st : SensorState) :
    (paramLogs st).count Ev.connectAttempt = 0 := by
  unfold paramLogs
  split <;> split <;> rfl

theorem dispatchTrigger_call_mem (p : List Nat → Except PyExc PyObj)
    (d : String → Payload → Except PyExc Unit) (method : Option String)
    (tag : Nat) (rawBody : List Nat) (queue : String) (t : String) (pl : Payload)
    (h : Ev.dispatchCall t pl ∈ dispatchTrigger p d method tag rawBody queue) :
    t = "rabbitmq.new_message" ∧ pl.queue = queue := by
  unfold dispatchTrigger at h
  cases h1 : deserializeBody p method rawBody with
  | error e => rw [h1] at h; simp at h
  | ok v =>
    rw [h1] at h
    have h2 : Ev.dispatchCall t pl ∈
        (Ev.log "debug" recvMsgFmt ::
          match pyDecodeUtf8 v with
          | Except.error e => [Ev.raised e]
          | Except.ok s => dispatchAndAck d { queue := queue, body := s } tag) := h
    cases hdec : pyDecodeUtf8 v with
    | error e => rw [hdec] at h2; simp at h2
    | ok s =>
      rw [hdec] at h2
      have h3 : Ev.dispatchCall t pl ∈
          (Ev.log "debug" recvMsgFmt ::
            Ev.dispatchCall "rabbitmq.new_message" { queue := queue, body := s } ::
            match d "rabbitmq.new_message" { queue := queue, body := s } with
            | Except.ok _ => [Ev.ack tag]
            | Except.error e => [Ev.ack tag, Ev.raised e]) := h2
      cases hd : d "rabbitmq.new_message" { queue := queue, body := s } with
      | ok u =>
        rw [hd] at h3
        simp at h3
        obtain ⟨ht, hpl⟩ := h3
        exact ⟨ht, by rw [hpl]⟩
      | error e =>
        rw [hd] at h3
        simp at h3
        obtain ⟨ht, hpl⟩ := h3
        exact ⟨ht, by rw [hpl]⟩

/-! ## Claims about construction and setup -/

/-- Claim C7 (confirmed).  A configuration whose deserialization mode is a
non-empty string other than "json" or "pickle" is rejected at construction
time with a `ValueError` (given that the earlier required keys are
present); and every state that construction does accept has a mode on
which `_deserialize_body` can never fail, so an invalid mode is never
detected at message-handling time. -/
theorem invalid_method_rejected_at_construction
    (c : SensorConfig) (host : String) (qsc : QueueSensorConfig) (qv : QueuesValue)
    (m : String)
    (hhost : c.host = some host)
    (hqsc : c.rabbitmq_queue_sensor = some qsc)
    (hq : qsc.queues = some qv)
    (hdm : qsc.deserialization_method = some (some m))
    (hne : m ≠ "") (hj : m ≠ "json") (hp : m ≠ "pickle")
    (c2 : SensorConfig) (st : SensorState)
    (hok : sensorInit c2 = Except.ok st)
    (p : List Nat → Except PyExc PyObj) (body : List Nat) :
    sensorInit c = Except.error (PyExc.valueError "Invalid deserialization method specified")
    ∧ exceptIsOk (deserializeBody p st.deserialization_method body) = true := by
  constructor
  · have ht : pyStrTruthy (some m) = true := by
      unfold pyStrTruthy
      exact bne_iff_ne.mpr hne
    have hs : isSupportedMethod (some m) = false := by
      unfold isSupportedMethod
      simp [hj, hp]
    simp only [sensorInit, hhost, hqsc, hq, hdm, ht, hs]
    rfl
  · exact deserializeBody_total p st.deserialization_method body
      (sensorInit_ok_method c2 st hok)

/-- Witness for `invalid_method_rejected_at_construction`: mode "msgpack"
is rejected, while the valid configuration with mode "json" constructs a
state whose deserialization never raises. -/
theorem invalid_method_rejected_at_construction_witness :
    (cfgWith (some (QueuesValue.list ["q"])) (some (some "msgpack"))).host = some "localhost"
    ∧ (cfgWith (some (QueuesValue.list ["q"])) (some (some "msgpack"))).rabbitmq_queue_sensor
      = some { queues := some (QueuesValue.list ["q"]),
               deserialization_method := some (some "msgpack") }
    ∧ ("msgpack" : String) ≠ ""
    ∧ ("msgpack" : String) ≠ "json"
    ∧ ("msgpack" : String) ≠ "pickle"
    ∧ sensorInit (cfgWith (some (QueuesValue.list ["q"])) (some (some "json")))
      = Except.ok (mkTestState ["q"] (some "json"))
    ∧ (sensorInit (cfgWith (some (QueuesValue.list ["q"])) (some (some "msgpack")))
        = Except.error (PyExc.valueError "Invalid deserialization method specified")
      ∧ exceptIsOk (deserializeBody pickleStub
          (mkTestState ["q"] (some "json")).deserialization_method helloBytes) = true) :=
  ⟨rfl, rfl, by decide, by decide, by decide, rfl,
    invalid_method_rejected_at_construction
      (cfgWith (some (QueuesValue.list ["q"])) (some (some "msgpack"))) "localhost"
      { queues := some (QueuesValue.list ["q"]),
        deserialization_method := some (some "msgpack") }
      (QueuesValue.list ["q"]) "msgpack" rfl rfl rfl rfl
      (by decide) (by decide) (by decide)
      (cfgWith (some (QueuesValue.list ["q"])) (some (some "json")))
      (mkTestState ["q"] (some "json")) rfl pickleStub helloBytes⟩

/-- Claim C8, counterexample to the original statement: a configuration
that omits the `deserialization_method` entry entirely does NOT construct —
the bracket access on line 45 raises `KeyError`, because only truly
optional entries are read with `.get`. -/
theorem missing_method_key_raises_keyerror :
    sensorInit (cfgWith (some (QueuesValue.list ["orders"])) none)
      = Except.error (PyExc.keyError "deserialization_method") := rfl

/-- Claim C8 (corrected).  The `deserialization_method` entry must be
present, but its value may be null (or empty): construction then succeeds,
and every delivered body is forwarded with identity deserialization — the
raw bytes, UTF-8 decoded. -/
theorem null_method_defaults_to_identity (qv : QueuesValue)
    (p : List Nat → Except PyExc PyObj) (d : String → Payload → Except PyExc Unit)
    (tag : Nat) (body : List Nat) (queue : String) (s : String)
    (hdec : utf8Decode body = some s) :
    sensorInit (cfgWith (some qv) (some none))
      = Except.ok
          { host := "localhost", port := 5672, username := none, password := none,
            vhost := none, socket_timeout := 60, blocked_connection_timeout := 60,
            heartbeat := 600, queues := normalizeQueues qv,
            deserialization_method := none, conn := none, channel := none }
    ∧ deserializeBody p none body = Except.ok (PyObj.pybytes body)
    ∧ (dispatchTrigger p d none tag body queue).filter isDispatchEv
        = [Ev.dispatchCall "rabbitmq.new_message" { queue := queue, body := s }] := by
  refine ⟨rfl, rfl, ?_⟩
  have hpd : pyDecodeUtf8 (PyObj.pybytes body) = Except.ok s := by
    show (match utf8Decode body with
          | some s2 => Except.ok s2
          | none => Except.error PyExc.unicodeDecodeError) = Except.ok s
    rw [hdec]
  rw [dispatchTrigger_eq_ok p d none tag body queue (PyObj.pybytes body) s rfl hpd]
  show (dispatchAndAck d { queue := queue, body := s } tag).filter isDispatchEv = _
  exact dispatchAndAck_filter_dispatch d _ tag

/-- Witness for `null_method_defaults_to_identity` on queue "orders" and
body b"hello". -/
theorem null_method_defaults_to_identity_witness :
    utf8Decode helloBytes = some "hello"
    ∧ (sensorInit (cfgWith (some (QueuesValue.single "orders")) (some none))
        = Except.ok
            { host := "localhost", port := 5672, username := none, password := none,
              vhost := none, socket_timeout := 60, blocked_connection_timeout := 60,
              heartbeat := 600, queues := normalizeQueues (QueuesValue.single "orders"),
              deserialization_method := none, conn := none, channel := none }
      ∧ deserializeBody pickleStub none helloBytes = Except.ok (PyObj.pybytes helloBytes)
      ∧ (dispatchTrigger pickleStub dispatchOk none 5 helloBytes "orders").filter isDispatchEv
          = [Ev.dispatchCall "rabbitmq.new_message" { queue := "orders", body := "hello" }]) :=
  ⟨by decide,
    null_method_defaults_to_identity (QueuesValue.single "orders") pickleStub dispatchOk
      5 helloBytes "orders" "hello" (by decide)⟩

/-- Replace the `queues` entry of a configuration, leaving everything else
unchanged. -/
def withQueuesVal (c : SensorConfig) (qv : QueuesValue) : SensorConfig :=
  { c with rabbitmq_queue_sensor :=
      c.rabbitmq_queue_sensor.map fun qsc => { qsc with queues := some qv } }

/-- Claim C10 (confirmed).  A bare string under the `queues` key is
normalized to the one-element list of that string, so construction from a
single queue name and from the singleton list of that name produce
identical results (hence identical subscriptions and behaviour
downstream). -/
theorem single_queue_string_normalized (c : SensorConfig) (s : String) :
    normalizeQueues (QueuesValue.single s) = [s]
    ∧ sensorInit (withQueuesVal c (QueuesValue.single s))
        = sensorInit (withQueuesVal c (QueuesValue.list [s])) := by
  refine ⟨rfl, ?_⟩
  obtain ⟨host, port, username, password, vhost, sto, bto, hb, rqs⟩ := c
  cases host with
  | none => rfl
  | some h =>
    cases rqs with
    | none => rfl
    | some qsc =>
      obtain ⟨qs, dm⟩ := qsc
      cases dm with
      | none => rfl
      | some dm2 => rfl

/-- Claim C5 (confirmed).  Each subscription registered by `setup` is for
the queue at the same position of the configured list, and its callback
only ever dispatches payloads whose `queue` field is that same name, with
trigger kind "rabbitmq.new_message" — the queue name is captured by value
at registration time via the `queue_copy=queue` default argument. -/
theorem callback_captures_queue_by_value (p : List Nat → Except PyExc PyObj)
    (d : String → Payload → Except PyExc Unit) (st : SensorState) (i : Nat)
    (q : String) (cb : Nat → List Nat → List Ev)
    (hsub : (setup p d (Except.ok ()) st).subs[i]? = some (q, cb))
    (tag : Nat) (body : List Nat) (t : String) (pl : Payload)
    (hmem : Ev.dispatchCall t pl ∈ cb tag body) :
    st.queues[i]? = some q ∧ pl.queue = q ∧ t = "rabbitmq.new_message" := by
  have hsubs : (setup p d (Except.ok ()) st).subs
      = st.queues.map fun queue =>
          (queue, fun tag2 body2 =>
            dispatchTrigger p d st.deserialization_method tag2 body2 queue) := rfl
  rw [hsubs, List.getElem?_map] at hsub
  cases hqi : st.queues[i]? with
  | none => rw [hqi] at hsub; simp at hsub
  | some qi =>
    rw [hqi, Option.map_some'] at hsub
    injection hsub with hpair
    have h1 : qi = q := congrArg Prod.fst hpair
    have h2 : (fun tag2 body2 =>
        dispatchTrigger p d st.deserialization_method tag2 body2 qi) = cb :=
      congrArg Prod.snd hpair
    rw [← h2] at hmem
    obtain ⟨ht, hq2⟩ :=
      dispatchTrigger_call_mem p d st.deserialization_method tag body qi t pl hmem
    exact ⟨by rw [h1], by rw [hq2, h1], ht⟩

/-- The callback registered for queue "b" in the two-queue witness
scenario. -/
def cbQueueB : Nat → List Nat → List Ev :=
  fun tag body => dispatchTrigger pickleStub dispatchOk none tag body "b"

/-- Witness for `callback_captures_queue_by_value`: subscribing to
["a","b"] and delivering b"hello" to the second subscription forwards
queue "b", not "a". -/
theorem callback_captures_queue_by_value_witness :
    (setup pickleStub dispatchOk (Except.ok ()) (mkTestState ["a", "b"] none)).subs[1]?
      = some ("b", cbQueueB)
    ∧ Ev.dispatchCall "rabbitmq.new_message" { queue := "b", body := "hello" }
        ∈ cbQueueB 7 helloBytes
    ∧ ((mkTestState ["a", "b"] none).queues[1]? = some "b"
      ∧ (Payload.mk "b" "hello").queue = "b"
      ∧ ("rabbitmq.new_message" : String) = "rabbitmq.new_message") :=
  ⟨rfl, by decide,
    callback_captures_queue_by_value pickleStub dispatchOk (mkTestState ["a", "b"] none)
      1 "b" cbQueueB rfl 7 helloBytes "rabbitmq.new_message"
      (Payload.mk "b" "hello") (by decide)⟩

/-- Claim C6 (confirmed).  When the transport connect call fails during
setup (and no earlier connection exists), the connection error is caught by
the bare `except` and logged, not propagated: exactly one connect attempt
is made (no internal retry), `conn` stays `None`, and execution continues
past the handler — the exception that does leave `setup` is the distinct
`AttributeError` from the subsequent `self.conn.channel()` on `None`, not
the connection error. -/
theorem connect_failure_logged_not_propagated
    (p : List Nat → Except PyExc PyObj) (d : String → Payload → Except PyExc Unit)
    (e : PyExc) (st : SensorState) (hconn : st.conn = none) :
    (setup p d (Except.error e) st).events.count Ev.connectAttempt = 1
    ∧ Ev.log "error" "Connecting to RabbitMQ failed: %r"
        ∈ (setup p d (Except.error e) st).events
    ∧ (setup p d (Except.error e) st).conn = none
    ∧ (setup p d (Except.error e) st).raised = some (PyExc.attributeError "channel") := by
  obtain ⟨host, port, username, password, vhost, sto, bto, hb, qs, dm, conn, chan⟩ := st
  simp only at hconn
  subst hconn
  refine ⟨?_, ?_, rfl, rfl⟩
  · show ((paramLogs ⟨host, port, username, password, vhost, sto, bto, hb, qs, dm, none, chan⟩
        ++ [Ev.log "info" "Connecting to RabbitMQ on %s:%r", Ev.connectAttempt])
        ++ [Ev.log "error" "Connecting to RabbitMQ failed: %r"]).count Ev.connectAttempt = 1
    rw [List.count_append, List.count_append, paramLogs_count]
    rfl
  · show Ev.log "error" "Connecting to RabbitMQ failed: %r"
      ∈ (paramLogs ⟨host, port, username, password, vhost, sto, bto, hb, qs, dm, none, chan⟩
        ++ [Ev.log "info" "Connecting to RabbitMQ on %s:%r", Ev.connectAttempt])
        ++ [Ev.log "error" "Connecting to RabbitMQ failed: %r"]
    exact List.mem_append_right _ (List.mem_singleton.mpr rfl)

/-- Witness for `connect_failure_logged_not_propagated` on a concrete
one-queue state. -/
theorem connect_failure_logged_not_propagated_witness :
    (mkTestState ["a"] none).conn = none
    ∧ ((setup pickleStub dispatchOk (Except.error PyExc.connectionError)
          (mkTestState ["a"] none)).events.count Ev.connectAttempt = 1
      ∧ Ev.log "error" "Connecting to RabbitMQ failed: %r"
          ∈ (setup pickleStub dispatchOk (Except.error PyExc.connectionError)
              (mkTestState ["a"] none)).events
      ∧ (setup pickleStub dispatchOk (Except.error PyExc.connectionError)
          (mkTestState ["a"] none)).conn = none
      ∧ (setup pickleStub dispatchOk (Except.error PyExc.connectionError)
          (mkTestState ["a"] none)).raised = some (PyExc.attributeError "channel")) :=
  ⟨rfl,
    connect_failure_logged_not_propagated pickleStub dispatchOk PyExc.connectionError
      (mkTestState ["a"] none) rfl⟩
